import Mathlib

set_option maxRecDepth 4000

/-!
Shallow embedding of the entity-extraction core of `loan_enquiry_form.py`:
the function `extract_loan_entities` (lines 134-329) together with its
keyword tables and the `amount_patterns` / `income_patterns` /
`timeline_patterns` regular-expression tables.

Modelling conventions:

* Python strings are `List Char`; `str.lower`, `str.capitalize`,
  `str.title` and the `\d` / `\s` character classes are modelled on their
  ASCII behaviour (every keyword and pattern in the source is ASCII).
* Each regular expression of the source is transliterated into a bespoke
  matcher implementing `re.search` semantics for that particular pattern:
  start positions are tried left to right, and at each position every
  quantified piece is matched greedily.  For the patterns of this source,
  greedy matching never has to backtrack into the literal tail: the
  characters a greedy digit or whitespace run could give back can never
  begin the literal word that follows it (the word alternatives all start
  with letters, and the optional filler words of the income patterns all
  start with letters while the continuation needs a space, a digit or a
  currency sign).  So "greedy and commit" agrees with `re`.
* `float(s)` applied to a matched numeral is modelled exactly, as the pair
  (mantissa, number of decimal digits) denoting mantissa / 10 ^ decimals.
  The source computes in IEEE doubles; every value evaluated concretely in
  this development is an integer below 10 ^ 8, where the two agree.
  A failing numeric parse is modelled as `Except.error ()`, mirroring the
  `ValueError` that `float` would raise inside `extract_loan_entities`
  (which contains no handler for it).
* `print` calls of the source are ignored; they do not affect the result.
-/

/-- ASCII model of the regex class `\s` used by `re`. -/
def isPySpace (c : Char) : Bool :=
  c = ' ' || c = '\t' || c = '\n' || c = '\r' || c = Char.ofNat 11 || c = Char.ofNat 12

/-- Greedy `\s*`: drop leading whitespace. -/
def skipSpaces (cs : List Char) : List Char :=
  cs.dropWhile isPySpace

/-- ASCII model of Python `str.lower()` (`text.lower()` in the source). -/
def pyLower (cs : List Char) : List Char :=
  cs.map Char.toLower

/-- ASCII model of Python `str.capitalize()`: first character upper-cased,
the remainder lower-cased. -/
def pyCapitalize (cs : List Char) : List Char :=
  match cs with
  | [] => []
  | c :: rest => Char.toUpper c :: rest.map Char.toLower

/-- Helper for `pyTitle`: the boolean records whether the previous
character was cased (ASCII: a letter). -/
def pyTitleAux : Bool → List Char → List Char
  | _, [] => []
  | prev, c :: rest =>
    if c.isAlpha then
      (if prev then Char.toLower c else Char.toUpper c) :: pyTitleAux true rest
    else
      c :: pyTitleAux false rest

/-- ASCII model of Python `str.title()`. -/
def pyTitle (cs : List Char) : List Char :=
  pyTitleAux false cs

/-- Python `keyword in text`: substring containment. -/
def containsSub (hay needle : List Char) : Bool :=
  match hay with
  | [] => needle.isEmpty
  | c :: rest => needle.isPrefixOf (c :: rest) || containsSub rest needle

/-- Python `s.replace('_', ' ')` on the purpose keys. -/
def replaceUnderscore (cs : List Char) : List Char :=
  cs.map (fun c => if c = '_' then ' ' else c)

/-- Python `s.replace(',', '')` applied to a matched numeral group. -/
def stripCommas (cs : List Char) : List Char :=
  cs.filter (fun c => c != ',')

/-- Numeric value of an ASCII digit. -/
def digitVal (c : Char) : Nat :=
  c.toNat - 48

/-- Value of a list of ASCII digits, most significant first. -/
def digitsToNat (ds : List Char) : Nat :=
  ds.foldl (fun n c => 10 * n + digitVal c) 0

/-- Greedy `(?:,\d{3})*`: consume groups of a comma followed by exactly
three digits, returning the consumed characters and the remainder. -/
def commaGroups : List Char → List Char × List Char
  | ',' :: a :: b :: c :: rest =>
    if a.isDigit && b.isDigit && c.isDigit then
      (',' :: a :: b :: c :: (commaGroups rest).1, (commaGroups rest).2)
    else
      ([], ',' :: a :: b :: c :: rest)
  | l => ([], l)

/-- Second stage of the `float` model, after splitting the integer part. -/
def parseFrac (ip fp rest : List Char) : Option (Nat × Nat) :=
  if rest.isEmpty && !(ip.isEmpty && fp.isEmpty) then
    some (digitsToNat (ip ++ fp), fp.length)
  else
    none

/-- First stage of the `float` model: dispatch on what follows the
integer digits. -/
def parseAfterInt (ip rest : List Char) : Option (Nat × Nat) :=
  match rest with
  | [] => if ip.isEmpty then none else some (digitsToNat ip, 0)
  | '.' :: fs => parseFrac ip (fs.takeWhile Char.isDigit) (fs.dropWhile Char.isDigit)
  | _ => none

/-- Exact model of Python `float(s)` on the numeral shapes the patterns
produce: `digits`, `digits.digits`, `digits.` or `.digits`.  Returns the
mantissa together with the count of decimal digits; `none` models the
`ValueError` float raises on anything unparseable. -/
def parseNumeral (cs : List Char) : Option (Nat × Nat) :=
  parseAfterInt (cs.takeWhile Char.isDigit) (cs.dropWhile Char.isDigit)

/-- Round `num / den` to the nearest integer, ties to even, as the
`...:,.0f` format specifier does (`den` is a power of ten). -/
def roundHalfEven (num den : Nat) : Nat :=
  let q := num / den
  let r := num % den
  if 2 * r < den then q else if den < 2 * r then q + 1 else if q % 2 = 0 then q else q + 1

/-- Insert a comma after every three characters, working on a reversed
digit string. -/
def groupDigitsRev : List Char → List Char
  | a :: b :: c :: d :: rest => a :: b :: c :: ',' :: groupDigitsRev (d :: rest)
  | l => l

/-- Thousands grouping of the `,` flag in `f"₹{amount:,.0f}"`. -/
def groupDigits (ds : List Char) : List Char :=
  (groupDigitsRev ds.reverse).reverse

/-- Model of `f"₹{amount:,.0f}"` where `amount = (m / 10 ^ dec) * scale`. -/
def formatAmount (m dec scale : Nat) : List Char :=
  '₹' :: groupDigits (Nat.toDigits 10 (roundHalfEven (m * scale) (10 ^ dec)))

/-- `re.search` position scan: try the single-position matcher at every
suffix of the text, left to right (including the empty suffix, which no
pattern of the source can match). -/
def searchWith {α : Type} (p : List Char → Option α) : List Char → Option α
  | [] => p []
  | c :: rest =>
    match p (c :: rest) with
    | some r => some r
    | none => searchWith p rest

/-! ## Single-position matchers for the regular expressions of the source -/

/-- `₹\s*(\d{1,3}(?:,\d{3})*)` at one position; returns group 1. -/
def tryRupeeSym (cs : List Char) : Option (List Char) :=
  match cs with
  | [] => none
  | c :: rest =>
    if c = '₹' then
      let r := skipSpaces rest
      let ds := (r.takeWhile Char.isDigit).take 3
      if ds.isEmpty then none
      else some (ds ++ (commaGroups (r.drop ds.length)).1)
    else none

/-- `(\d+(?:,\d{3})*)\s*(?:rupees?|rs\.?|inr)` at one position; the
optional `s` / `.` tails of the alternatives affect only the match span,
never success or group 1, so testing the prefixes `rupee`, `rs`, `inr`
is exact. -/
def tryRupeeWord (cs : List Char) : Option (List Char) :=
  let ds := cs.takeWhile Char.isDigit
  if ds.isEmpty then none
  else
    if [("rupee".data), ("rs".data), ("inr".data)].any
        (fun u => u.isPrefixOf (skipSpaces (commaGroups (cs.dropWhile Char.isDigit)).2)) then
      some (ds ++ (commaGroups (cs.dropWhile Char.isDigit)).1)
    else none

/-- Greedy `(?:\.\d+)?` after the integer digits `ds`: returns group 1 so
far and the remainder of the text. -/
def fracSplit (ds r : List Char) : List Char × List Char :=
  match r with
  | '.' :: r2 =>
    if (r2.takeWhile Char.isDigit).isEmpty then (ds, r)
    else (ds ++ '.' :: r2.takeWhile Char.isDigit, r2.dropWhile Char.isDigit)
  | _ => (ds, r)

/-- `(\d+(?:\.\d+)?)\s*(?:U1|U2|...)` at one position, for the unit
alternatives `k|thousand`, `lakh|lakhs?` and `crore|crores?` (for the
latter two the first alternative is a prefix of the others, and the
trailing `\s*(?:rupees?|rs\.?)?` of the thousand pattern is always able
to match the empty string, so none of them affects success or group 1). -/
def tryScaled (units : List (List Char)) (cs : List Char) : Option (List Char) :=
  let ds := cs.takeWhile Char.isDigit
  if ds.isEmpty then none
  else
    if units.any (fun u => u.isPrefixOf (skipSpaces (fracSplit ds (cs.dropWhile Char.isDigit)).2)) then
      some (fracSplit ds (cs.dropWhile Char.isDigit)).1
    else none

/-- `(?:salary|income|earn(?:ing)?|make)` at one position; trying
`earning` before `earn` implements the greedy optional `(?:ing)?`
(committing is exact: if `earning` matched, the continuation after a bare
`earn` would have to start with `ing…`, and no filler word, space or
digit matches that). -/
def matchKeyword (cs : List Char) : Option (List Char) :=
  if ("salary".data).isPrefixOf cs then some (cs.drop 6)
  else if ("income".data).isPrefixOf cs then some (cs.drop 6)
  else if ("earning".data).isPrefixOf cs then some (cs.drop 7)
  else if ("earn".data).isPrefixOf cs then some (cs.drop 4)
  else if ("make".data).isPrefixOf cs then some (cs.drop 4)
  else none

/-- Greedy `(?:of|is|around|about)?` (at most one alternative can match at
a given position, and committing is exact because the continuation after
an empty filler would have to match a letter with `\s*` plus a digit or
`₹`). -/
def dropFiller (cs : List Char) : List Char :=
  if ("of".data).isPrefixOf cs then cs.drop 2
  else if ("is".data).isPrefixOf cs then cs.drop 2
  else if ("around".data).isPrefixOf cs then cs.drop 6
  else if ("about".data).isPrefixOf cs then cs.drop 5
  else cs

/-- The income patterns are the amount patterns preceded by
`(?:salary|income|earn(?:ing)?|make)\s*(?:of|is|around|about)?\s*`. -/
def tryIncomePre (core : List Char → Option (List Char)) (cs : List Char) : Option (List Char) :=
  match matchKeyword cs with
  | none => none
  | some rest => core (skipSpaces (dropFiller (skipSpaces rest)))

/-- `(\d+)\s*(?:years?|yrs?)` at one position. -/
def tryYears (cs : List Char) : Option (List Char) :=
  let ds := cs.takeWhile Char.isDigit
  if ds.isEmpty then none
  else
    if ("year".data).isPrefixOf (skipSpaces (cs.dropWhile Char.isDigit)) ||
       ("yr".data).isPrefixOf (skipSpaces (cs.dropWhile Char.isDigit)) then
      some ds
    else none

/-- `(\d+)\s*(?:months?|mos?)` at one position. -/
def tryMonths (cs : List Char) : Option (List Char) :=
  let ds := cs.takeWhile Char.isDigit
  if ds.isEmpty then none
  else
    if ("month".data).isPrefixOf (skipSpaces (cs.dropWhile Char.isDigit)) ||
       ("mo".data).isPrefixOf (skipSpaces (cs.dropWhile Char.isDigit)) then
      some ds
    else none

/-- `(\d+)\s*to\s*(\d+)\s*(?:years?|yrs?)` at one position; returns the
two captured digit groups. -/
def tryRange (cs : List Char) : Option (List Char × List Char) :=
  let d1 := cs.takeWhile Char.isDigit
  if d1.isEmpty then none
  else
    let r1 := skipSpaces (cs.dropWhile Char.isDigit)
    if ("to".data).isPrefixOf r1 then
      let r2 := skipSpaces (r1.drop 2)
      let d2 := r2.takeWhile Char.isDigit
      if d2.isEmpty then none
      else
        if ("year".data).isPrefixOf (skipSpaces (r2.dropWhile Char.isDigit)) ||
           ("yr".data).isPrefixOf (skipSpaces (r2.dropWhile Char.isDigit)) then
          some (d1, d2)
        else none
    else none

/-! ## Data model -/

/-- The six closed output categories of the extractor. -/
inductive FieldKind
  | loan_type
  | loan_purpose
  | loan_amount
  | employment_income
  | repayment_timeline
  | bank_relationship
deriving DecidableEq

/-- One extracted record: the dicts the source appends to `entities`. -/
structure Entity where
  field : FieldKind
  value : List Char
  confidence : List Char
deriving DecidableEq

/-! ## Keyword tables (dicts of the source, in insertion order) -/

/-- `loan_types` dict (lines 143-149). -/
def loan_types : List (List Char × List (List Char)) :=
  [ (("personal".data), [("personal loan".data), ("personal".data), ("individual loan".data)]),
    (("home".data), [("home loan".data), ("housing loan".data), ("mortgage".data), ("house loan".data),
      ("property loan".data), ("purchase a home".data), ("purchase a house".data)]),
    (("auto".data), [("auto loan".data), ("car loan".data), ("vehicle loan".data), ("automobile loan".data)]),
    (("business".data), [("business loan".data), ("commercial loan".data), ("enterprise loan".data),
      ("business expansion".data), ("expand my business".data), ("new business".data)]),
    (("education".data), [("education loan".data), ("student loan".data), ("study loan".data)]) ]

/-- `purpose_keywords` dict (lines 165-174). -/
def purpose_keywords : List (List Char × List (List Char)) :=
  [ (("home_purchase".data), [("buy home".data), ("purchase home".data), ("buying house".data),
      ("home purchase".data), ("buy a house".data), ("purchase a home".data), ("purchase a house".data)]),
    (("renovation".data), [("renovation".data), ("remodel".data), ("home improvement".data)]),
    (("debt_consolidation".data), [("debt consolidation".data), ("consolidate debt".data), ("pay off debts".data)]),
    (("business_expansion".data), [("business expansion".data), ("expand business".data), ("grow business".data)]),
    (("education".data), [("education".data), ("study".data), ("tuition".data), ("college".data),
      ("tuition fees".data), ("college fees".data)]),
    (("vehicle_purchase".data), [("buy car".data), ("purchase vehicle".data), ("buying car".data)]),
    (("medical".data), [("medical".data), ("healthcare".data), ("hospital".data)]),
    (("wedding".data), [("wedding".data), ("marriage".data)]) ]

/-- `employed_keywords` (line 229). -/
def employed_keywords : List (List Char) :=
  [("employed".data), ("working".data), ("job".data), ("work as".data), ("working as".data),
   ("employed as".data), ("full time".data), ("full-time".data), ("part time".data),
   ("part-time".data), ("am a employee".data), ("working professional".data)]

/-- `self_employed_keywords` (line 230). -/
def self_employed_keywords : List (List Char) :=
  [("self-employed".data), ("self employed".data), ("business owner".data),
   ("own business".data), ("freelancer".data), ("entrepreneur".data)]

/-- `unemployed_keywords` (line 231). -/
def unemployed_keywords : List (List Char) :=
  [("unemployed".data), ("not employed".data), ("not working".data), ("no job".data),
   ("jobless".data), ("am not employee".data)]

/-- The apostrophe character, used in two bank-relationship keywords. -/
def apos : Char := Char.ofNat 39

/-- `relationship_keywords` dict (lines 310-313). -/
def relationship_keywords : List (List Char × List (List Char)) :=
  [ (("yes".data), [("existing customer".data), ("current customer".data), ("already have account".data),
      ("have account".data), ("yes".data), ("i have account".data), ("i have account in your bank".data)]),
    (("no".data), [("no account".data), ("new customer".data), ("first time".data),
      ("no relationship".data), ("no".data),
      (("i don".data) ++ [apos] ++ ("t have account".data)),
      (("i don".data) ++ [apos] ++ ("t have account in your bank".data))]) ]

/-- `amount_patterns` (lines 192-198): each single-position matcher is
paired with its scale factor (`direct` 1, `thousand` 1000, `lakh`
100000, `crore` 10000000). -/
def amount_patterns : List ((List Char → Option (List Char)) × Nat) :=
  [ (tryRupeeSym, 1),
    (tryRupeeWord, 1),
    (tryScaled [("k".data), ("thousand".data)], 1000),
    (tryScaled [("lakh".data)], 100000),
    (tryScaled [("crore".data)], 10000000) ]

/-- `income_patterns` (lines 241-247): the amount patterns preceded by an
income-indicator word and optional filler. -/
def income_patterns : List ((List Char → Option (List Char)) × Nat) :=
  [ (tryIncomePre tryRupeeSym, 1),
    (tryIncomePre tryRupeeWord, 1),
    (tryIncomePre (tryScaled [("k".data), ("thousand".data)]), 1000),
    (tryIncomePre (tryScaled [("lakh".data)]), 100000),
    (tryIncomePre (tryScaled [("crore".data)]), 10000000) ]

/-! ## Field detectors -/

/-- First-candidate-wins walk over a keyword table: the nested `for`
loops with their `break` / `any(...)` exit of the source. -/
def matchFirst (tl : List Char) : List (List Char × List (List Char)) → Option (List Char)
  | [] => none
  | (k, kws) :: rest =>
    if kws.any (fun kw => containsSub tl kw) then some k else matchFirst tl rest

/-- Section 1 of `extract_loan_entities`: loan type. -/
def loanTypeEntity (tl : List Char) : Option Entity :=
  (matchFirst tl loan_types).map
    (fun k => ⟨FieldKind.loan_type, pyCapitalize k ++ (" Loan".data), ("high".data)⟩)

/-- Section 2: loan purpose. -/
def loanPurposeEntity (tl : List Char) : Option Entity :=
  (matchFirst tl purpose_keywords).map
    (fun k => ⟨FieldKind.loan_purpose, pyTitle (replaceUnderscore k), ("high".data)⟩)

/-- The `for pattern, conversion_type in ...` loop shared by sections 3
and 5 of the source: search each pattern in table order; on the first
regex match, parse the captured numeral (a failure propagates, as the
unguarded `float(...)` of the source would) and return mantissa, decimal
count and scale factor. -/
def scanPatterns (tl : List Char) :
    List ((List Char → Option (List Char)) × Nat) → Except Unit (Option (Nat × Nat × Nat))
  | [] => Except.ok none
  | (p, scale) :: rest =>
    match searchWith p tl with
    | some g =>
      match parseNumeral (stripCommas g) with
      | none => Except.error ()
      | some (m, d) => Except.ok (some (m, d, scale))
    | none => scanPatterns tl rest

/-- Section 3: loan amount. -/
def loanAmountE (tl : List Char) : Except Unit (Option Entity) :=
  match scanPatterns tl amount_patterns with
  | Except.error u => Except.error u
  | Except.ok none => Except.ok none
  | Except.ok (some (m, d, s)) =>
    Except.ok (some ⟨FieldKind.loan_amount, formatAmount m d s, ("high".data)⟩)

/-- Section 4a: employment status, checked in the fixed order
self-employed, unemployed, employed. -/
def employmentStatus (tl : List Char) : Option (List Char) :=
  if self_employed_keywords.any (fun kw => containsSub tl kw) then some ("Self-Employed".data)
  else if unemployed_keywords.any (fun kw => containsSub tl kw) then some ("Unemployed".data)
  else if employed_keywords.any (fun kw => containsSub tl kw) then some ("Employed".data)
  else none

/-- Section 4b: income info string. -/
def incomeInfoE (tl : List Char) : Except Unit (Option (List Char)) :=
  match scanPatterns tl income_patterns with
  | Except.error u => Except.error u
  | Except.ok none => Except.ok none
  | Except.ok (some (m, d, s)) => Except.ok (some (formatAmount m d s))

/-- Section 4c: combine status and income into one entity (the
`' | '.join` of the source, including its unreachable `'Employed'`
default for an empty parts list). -/
def employmentEntity (status inc : Option (List Char)) : Option Entity :=
  if status.isSome || inc.isSome then
    some ⟨FieldKind.employment_income,
      (if (status.toList ++ inc.toList).isEmpty then ("Employed".data)
       else List.intercalate (" | ".data) (status.toList ++ inc.toList)),
      ("medium".data)⟩
  else none

/-- Section 5: repayment timeline; the `timeline_patterns` list of the
source tries plain years, then months, then the year range. -/
def timelineEntity (tl : List Char) : Option Entity :=
  match searchWith tryYears tl with
  | some g => some ⟨FieldKind.repayment_timeline, g ++ (" years".data), ("high".data)⟩
  | none =>
    match searchWith tryMonths tl with
    | some g => some ⟨FieldKind.repayment_timeline, g ++ (" months".data), ("high".data)⟩
    | none =>
      match searchWith tryRange tl with
      | some (g1, g2) =>
        some ⟨FieldKind.repayment_timeline, g1 ++ ('-' :: g2) ++ (" years".data), ("high".data)⟩
      | none => none

/-- Section 6: bank relationship. -/
def bankEntity (tl : List Char) : Option Entity :=
  (matchFirst tl relationship_keywords).map
    (fun k => ⟨FieldKind.bank_relationship, pyCapitalize k, ("medium".data)⟩)

/-- `extract_loan_entities(text)`: lower-case the input once, run the six
sections in source order and accumulate their entities.  A `ValueError`
escaping one of the two `float` calls is modelled as `Except.error ()`. -/
def extract_loan_entities (text : List Char) : Except Unit (List Entity) :=
  match loanAmountE (pyLower text) with
  | Except.error u => Except.error u
  | Except.ok amt =>
    match incomeInfoE (pyLower text) with
    | Except.error u => Except.error u
    | Except.ok inc =>
      Except.ok
        ((loanTypeEntity (pyLower text)).toList ++
         (loanPurposeEntity (pyLower text)).toList ++
         amt.toList ++
         (employmentEntity (employmentStatus (pyLower text)) inc).toList ++
         (timelineEntity (pyLower text)).toList ++
         (bankEntity (pyLower text)).toList)

/-- The entity list the call returns (empty on the error that is proved
below never to occur). -/
def extractEntities (text : List Char) : List Entity :=
  match extract_loan_entities text with
  | Except.ok l => l
  | Except.error _ => []

/-- Total mirror of the loan-amount detector. -/
def loanAmountOpt (tl : List Char) : Option Entity :=
  match loanAmountE tl with
  | Except.ok o => o
  | Except.error _ => none

/-- Total mirror of the income detector. -/
def incomeInfoOpt (tl : List Char) : Option (List Char) :=
  match incomeInfoE tl with
  | Except.ok o => o
  | Except.error _ => none

/-- The normal form of the result: one optional entity per section, in
source order. -/
def entityList (text : List Char) : List Entity :=
  (loanTypeEntity (pyLower text)).toList ++
  (loanPurposeEntity (pyLower text)).toList ++
  (loanAmountOpt (pyLower text)).toList ++
  (employmentEntity (employmentStatus (pyLower text)) (incomeInfoOpt (pyLower text))).toList ++
  (timelineEntity (pyLower text)).toList ++
  (bankEntity (pyLower text)).toList

example : extractEntities ("".data) = [] := by decide

example : extractEntities ("hello there".data) = [] := by decide

example : extractEntities ("50k".data) =
    [⟨FieldKind.loan_amount, ("₹50,000".data), ("high".data)⟩] := by decide

/-! ## Helper lemmas: matched numeral groups always parse -/

theorem takeWhile_append_stop (p : Char → Bool) (l r : List Char)
    (hl : ∀ c ∈ l, p c = true) (hr : ∀ c, r.head? = some c → p c = false) :
    (l ++ r).takeWhile p = l ∧ (l ++ r).dropWhile p = r := by
  induction l with
  | nil =>
    cases r with
    | nil => exact ⟨rfl, rfl⟩
    | cons c r' =>
      have hc := hr c rfl
      constructor
      · simp [List.takeWhile_cons, hc]
      · simp [List.dropWhile_cons, hc]
  | cons a l ih =>
    have ha : p a = true := hl a (by simp)
    have h2 := ih (fun c hc => hl c (by simp [hc]))
    constructor
    · simp [List.takeWhile_cons, ha, h2.1]
    · simp [List.dropWhile_cons, ha, h2.2]

theorem takeWhile_all (p : Char → Bool) (l : List Char) (h : ∀ c ∈ l, p c = true) :
    l.takeWhile p = l ∧ l.dropWhile p = [] := by
  have hh := takeWhile_append_stop p l [] h (by intro c hc; simp at hc)
  simpa using hh

theorem commaGroups_mem (l : List Char) : ∀ x ∈ (commaGroups l).1, x = ',' ∨ x.isDigit = true := by
  induction l using commaGroups.induct with
  | case1 a b c rest h ih =>
    intro x hx
    rw [commaGroups] at hx
    simp only [h, if_true] at hx
    simp only [List.mem_cons] at hx
    rcases hx with rfl | rfl | rfl | rfl | hx
    · exact Or.inl rfl
    · exact Or.inr ((Bool.and_eq_true _ _).mp ((Bool.and_eq_true _ _).mp h).1).1
    · exact Or.inr ((Bool.and_eq_true _ _).mp ((Bool.and_eq_true _ _).mp h).1).2
    · exact Or.inr ((Bool.and_eq_true _ _).mp h).2
    · exact ih x hx
  | case2 a b c rest h =>
    intro x hx
    rw [commaGroups] at hx
    simp [h] at hx
  | case3 l h =>
    intro x hx
    rw [commaGroups] at hx
    · simp at hx
    · exact h

theorem parseNumeral_digits {ds : List Char} (h1 : ds ≠ []) (h2 : ∀ c ∈ ds, c.isDigit = true) :
    parseNumeral ds = some (digitsToNat ds, 0) := by
  have h := takeWhile_all Char.isDigit ds h2
  unfold parseNumeral
  rw [h.1, h.2]
  simp [parseAfterInt, List.isEmpty_eq_false.mpr h1]

theorem parseNumeral_frac {ds fs : List Char} (h1 : ds ≠ []) (h2 : ∀ c ∈ ds, c.isDigit = true)
    (h3 : ∀ c ∈ fs, c.isDigit = true) :
    parseNumeral (ds ++ '.' :: fs) = some (digitsToNat (ds ++ fs), fs.length) := by
  have hsplit := takeWhile_append_stop Char.isDigit ds ('.' :: fs) h2
    (by intro c hc; simp at hc; subst hc; decide)
  have hfs := takeWhile_all Char.isDigit fs h3
  unfold parseNumeral
  rw [hsplit.1, hsplit.2]
  simp [parseAfterInt, parseFrac, hfs.1, hfs.2, List.isEmpty_eq_false.mpr h1]

theorem stripCommas_id {l : List Char} (h : ∀ c ∈ l, c ≠ ',') : stripCommas l = l := by
  unfold stripCommas
  apply List.filter_eq_self.mpr
  intro a ha
  simp [bne_iff_ne, h a ha]

theorem isDigit_ne_comma {c : Char} (h : c.isDigit = true) : c ≠ ',' := by
  intro hc
  subst hc
  simp at h

theorem parse_direct_group {ds cg : List Char} (h1 : ds ≠ []) (h2 : ∀ c ∈ ds, c.isDigit = true)
    (h3 : ∀ c ∈ cg, c = ',' ∨ c.isDigit = true) :
    (parseNumeral (stripCommas (ds ++ cg))).isSome = true := by
  have e1 : stripCommas (ds ++ cg) = ds ++ stripCommas cg := by
    unfold stripCommas
    rw [List.filter_append]
    congr 1
    apply List.filter_eq_self.mpr
    intro a ha
    simp [bne_iff_ne, isDigit_ne_comma (h2 a ha)]
  rw [e1]
  have hall : ∀ c ∈ ds ++ stripCommas cg, c.isDigit = true := by
    intro c hc
    rcases List.mem_append.mp hc with h | h
    · exact h2 c h
    · rcases List.mem_filter.mp h with ⟨hcg, hne⟩
      rcases h3 c hcg with rfl | hd
      · simp at hne
      · exact hd
  rw [parseNumeral_digits (fun hh => h1 (List.append_eq_nil.mp hh).1) hall]
  rfl

theorem parse_frac_group {ds fs : List Char} (h1 : ds ≠ []) (h2 : ∀ c ∈ ds, c.isDigit = true)
    (h3 : ∀ c ∈ fs, c.isDigit = true) :
    (parseNumeral (stripCommas (ds ++ '.' :: fs))).isSome = true := by
  have e1 : stripCommas (ds ++ '.' :: fs) = ds ++ '.' :: fs := by
    apply stripCommas_id
    intro c hc
    rcases List.mem_append.mp hc with h | h
    · exact isDigit_ne_comma (h2 c h)
    · rcases List.mem_cons.mp h with rfl | h
      · decide
      · exact isDigit_ne_comma (h3 c h)
  rw [e1, parseNumeral_frac h1 h2 h3]
  rfl

/-- A single-position matcher whose captured group always parses. -/
def ParseSafe (p : List Char → Option (List Char)) : Prop :=
  ∀ cs g, p cs = some g → (parseNumeral (stripCommas g)).isSome = true

theorem tryRupeeSym_safe : ParseSafe tryRupeeSym := by
  intro cs g h
  cases cs with
  | nil => simp [tryRupeeSym] at h
  | cons c rest =>
    simp only [tryRupeeSym] at h
    split at h
    · split at h
      · exact absurd h (by simp)
      next hds =>
        injection h with h
        subst h
        apply parse_direct_group
        · intro hh
          rw [List.isEmpty_iff] at hds
          exact hds hh
        · intro x hx
          exact List.mem_takeWhile_imp (List.take_subset _ _ hx)
        · exact commaGroups_mem _
    · exact absurd h (by simp)

theorem tryRupeeWord_safe : ParseSafe tryRupeeWord := by
  intro cs g h
  simp only [tryRupeeWord] at h
  split at h
  · exact absurd h (by simp)
  next hds =>
    split at h
    · injection h with h
      subst h
      apply parse_direct_group
      · intro hh
        rw [List.isEmpty_iff] at hds
        exact hds hh
      · intro x hx
        exact List.mem_takeWhile_imp hx
      · exact commaGroups_mem _
    · exact absurd h (by simp)

theorem fracSplit_fst_shape (ds r : List Char) :
    (fracSplit ds r).1 = ds ∨
      ∃ fs, (fracSplit ds r).1 = ds ++ '.' :: fs ∧ ∀ c ∈ fs, c.isDigit = true := by
  unfold fracSplit
  split
  · split
    · exact Or.inl rfl
    · exact Or.inr ⟨_, rfl, fun c hc => List.mem_takeWhile_imp hc⟩
  · exact Or.inl rfl

theorem tryScaled_safe (units : List (List Char)) : ParseSafe (tryScaled units) := by
  intro cs g h
  simp only [tryScaled] at h
  split at h
  · exact absurd h (by simp)
  next hds =>
    split at h
    · injection h with h
      have hne : cs.takeWhile Char.isDigit ≠ [] := by
        intro hh
        rw [List.isEmpty_iff] at hds
        exact hds hh
      have hdig : ∀ c ∈ cs.takeWhile Char.isDigit, c.isDigit = true :=
        fun c hc => List.mem_takeWhile_imp hc
      rcases fracSplit_fst_shape (cs.takeWhile Char.isDigit) (cs.dropWhile Char.isDigit)
          with hg | ⟨fs, hg, hfs⟩
      · rw [← h, hg]
        rw [stripCommas_id (fun c hc => isDigit_ne_comma (hdig c hc)),
          parseNumeral_digits hne hdig]
        rfl
      · rw [← h, hg]
        exact parse_frac_group hne hdig hfs
    · exact absurd h (by simp)

theorem tryIncomePre_safe {core : List Char → Option (List Char)} (h : ParseSafe core) :
    ParseSafe (tryIncomePre core) := by
  intro cs g hg
  unfold tryIncomePre at hg
  split at hg
  · exact absurd hg (by simp)
  · exact h _ _ hg

theorem searchWith_some {α : Type} {p : List Char → Option α} :
    ∀ {cs : List Char} {g : α}, searchWith p cs = some g → ∃ s, p s = some g := by
  intro cs
  induction cs with
  | nil => intro g h; exact ⟨[], h⟩
  | cons c rest ih =>
    intro g h
    simp only [searchWith] at h
    split at h
    next r heq =>
      injection h with h
      subst h
      exact ⟨c :: rest, heq⟩
    · exact ih h

theorem scanPatterns_ok (tl : List Char)
    (tbl : List ((List Char → Option (List Char)) × Nat))
    (hsafe : ∀ q ∈ tbl, ParseSafe q.1) :
    ∃ o, scanPatterns tl tbl = Except.ok o := by
  induction tbl with
  | nil => exact ⟨none, rfl⟩
  | cons q rest ih =>
    obtain ⟨p, s⟩ := q
    simp only [scanPatterns]
    split
    next g heq =>
      obtain ⟨cs, hcs⟩ := searchWith_some heq
      have hps := hsafe (p, s) (by simp) cs g hcs
      cases hp : parseNumeral (stripCommas g) with
      | none => rw [hp] at hps; simp at hps
      | some md =>
        obtain ⟨m, d⟩ := md
        exact ⟨some (m, d, s), rfl⟩
    · exact ih (fun q hq => hsafe q (List.mem_cons_of_mem _ hq))

theorem amount_patterns_safe : ∀ q ∈ amount_patterns, ParseSafe q.1 := by
  intro q hq
  simp only [amount_patterns, List.mem_cons, List.not_mem_nil, or_false] at hq
  rcases hq with rfl | rfl | rfl | rfl | rfl
  · exact tryRupeeSym_safe
  · exact tryRupeeWord_safe
  · exact tryScaled_safe _
  · exact tryScaled_safe _
  · exact tryScaled_safe _

theorem income_patterns_safe : ∀ q ∈ income_patterns, ParseSafe q.1 := by
  intro q hq
  simp only [income_patterns, List.mem_cons, List.not_mem_nil, or_false] at hq
  rcases hq with rfl | rfl | rfl | rfl | rfl
  · exact tryIncomePre_safe tryRupeeSym_safe
  · exact tryIncomePre_safe tryRupeeWord_safe
  · exact tryIncomePre_safe (tryScaled_safe _)
  · exact tryIncomePre_safe (tryScaled_safe _)
  · exact tryIncomePre_safe (tryScaled_safe _)

theorem loanAmountE_eq (tl : List Char) : loanAmountE tl = Except.ok (loanAmountOpt tl) := by
  obtain ⟨o, ho⟩ := scanPatterns_ok tl amount_patterns amount_patterns_safe
  unfold loanAmountOpt loanAmountE
  rw [ho]
  cases o with
  | none => rfl
  | some t =>
    obtain ⟨m, d, s⟩ := t
    rfl

theorem incomeInfoE_eq (tl : List Char) : incomeInfoE tl = Except.ok (incomeInfoOpt tl) := by
  obtain ⟨o, ho⟩ := scanPatterns_ok tl income_patterns income_patterns_safe
  unfold incomeInfoOpt incomeInfoE
  rw [ho]
  cases o with
  | none => rfl
  | some t =>
    obtain ⟨m, d, s⟩ := t
    rfl

theorem extractE_ok (t : List Char) : extract_loan_entities t = Except.ok (entityList t) := by
  unfold extract_loan_entities entityList
  rw [loanAmountE_eq, incomeInfoE_eq]

theorem extractEntities_eq (t : List Char) : extractEntities t = entityList t := by
  unfold extractEntities
  rw [extractE_ok]

/-! ## Shape of each detector's entity -/

theorem loanTypeEntity_shape {tl : List Char} {e : Entity} (h : loanTypeEntity tl = some e) :
    e.field = FieldKind.loan_type ∧ e.confidence = ("high".data) := by
  obtain ⟨k, _, rfl⟩ := Option.map_eq_some'.mp h
  exact ⟨rfl, rfl⟩

theorem loanPurposeEntity_shape {tl : List Char} {e : Entity} (h : loanPurposeEntity tl = some e) :
    e.field = FieldKind.loan_purpose ∧ e.confidence = ("high".data) := by
  obtain ⟨k, _, rfl⟩ := Option.map_eq_some'.mp h
  exact ⟨rfl, rfl⟩

theorem bankEntity_shape {tl : List Char} {e : Entity} (h : bankEntity tl = some e) :
    e.field = FieldKind.bank_relationship ∧ e.confidence = ("medium".data) := by
  obtain ⟨k, _, rfl⟩ := Option.map_eq_some'.mp h
  exact ⟨rfl, rfl⟩

theorem loanAmountE_shape {tl : List Char} {e : Entity}
    (h : loanAmountE tl = Except.ok (some e)) :
    e.field = FieldKind.loan_amount ∧ e.confidence = ("high".data) := by
  unfold loanAmountE at h
  split at h
  · exact absurd h (by simp)
  · injection h with h
    exact absurd h (by simp)
  · injection h with h
    injection h with h
    rw [← h]
    exact ⟨rfl, rfl⟩

theorem loanAmountOpt_shape {tl : List Char} {e : Entity} (h : loanAmountOpt tl = some e) :
    e.field = FieldKind.loan_amount ∧ e.confidence = ("high".data) := by
  unfold loanAmountOpt at h
  split at h
  next o heq =>
    subst h
    exact loanAmountE_shape heq
  · exact absurd h (by simp)

theorem employmentEntity_shape {s i : Option (List Char)} {e : Entity}
    (h : employmentEntity s i = some e) :
    e.field = FieldKind.employment_income ∧ e.confidence = ("medium".data) := by
  unfold employmentEntity at h
  split at h
  · injection h with h
    rw [← h]
    exact ⟨rfl, rfl⟩
  · exact absurd h (by simp)

theorem timelineEntity_shape {tl : List Char} {e : Entity} (h : timelineEntity tl = some e) :
    e.field = FieldKind.repayment_timeline ∧ e.confidence = ("high".data) := by
  unfold timelineEntity at h
  split at h
  · injection h with h
    rw [← h]
    exact ⟨rfl, rfl⟩
  · split at h
    · injection h with h
      rw [← h]
      exact ⟨rfl, rfl⟩
    · split at h
      · injection h with h
        rw [← h]
        exact ⟨rfl, rfl⟩
      · exact absurd h (by simp)

/-! ## Order and uniqueness of the result -/

/-- The fixed field order in which the six sections run. -/
def allFields : List FieldKind :=
  [FieldKind.loan_type, FieldKind.loan_purpose, FieldKind.loan_amount,
   FieldKind.employment_income, FieldKind.repayment_timeline, FieldKind.bank_relationship]

theorem map_field_opt {o : Option Entity} {f : FieldKind}
    (ho : ∀ e, o = some e → e.field = f) :
    ((o.toList).map (fun e => e.field)).Sublist [f] := by
  cases o with
  | none => exact List.nil_sublist _
  | some e =>
    have hf := ho e rfl
    simp only [Option.toList, List.map_cons, List.map_nil, hf]
    exact List.Sublist.refl _

theorem fields_sublist (t : List Char) :
    ((entityList t).map (fun e => e.field)).Sublist allFields := by
  unfold entityList
  simp only [List.map_append, List.append_assoc]
  exact
    (map_field_opt (fun e he => (loanTypeEntity_shape he).1)).append
      ((map_field_opt (fun e he => (loanPurposeEntity_shape he).1)).append
        ((map_field_opt (fun e he => (loanAmountOpt_shape he).1)).append
          ((map_field_opt (fun e he => (employmentEntity_shape he).1)).append
            ((map_field_opt (fun e he => (timelineEntity_shape he).1)).append
              (map_field_opt (fun e he => (bankEntity_shape he).1))))))

/-! ## Claims -/

/-- Claim C1 (the spec is the intent, the code a slip): the specification
requires the explicit year-range pattern to be tried before the
plain-years pattern, so that "5 to 7 years" yields "5-7 years".  In the
source, `timeline_patterns` lists the plain-years pattern first and the
range pattern last; any text the range pattern could match also matches
the plain-years pattern (at its second number), so the range pattern is
unreachable.  On the failing input "5 to 7 years" the code produces the
repayment_timeline value "7 years", not the required "5-7 years". -/
theorem timeline_range_input_yields_plain_years :
    extractEntities ("5 to 7 years".data) =
      [⟨FieldKind.repayment_timeline, ("7 years".data), ("high".data)⟩] := by
  decide

/-- The end-to-end scenario transcript of the specification (claim C2). -/
def c2Input : List Char :=
  ("I need a home loan of 10 lakh rupees for home purchase, I am self-employed earning 50k per month, for 5 years, and I have account in your bank".data)

/-- The entity list claim C2 asserts for the scenario transcript. -/
def c2ClaimedEntities : List Entity :=
  [⟨FieldKind.loan_type, ("Home Loan".data), ("high".data)⟩,
   ⟨FieldKind.loan_purpose, ("Home Purchase".data), ("high".data)⟩,
   ⟨FieldKind.loan_amount, ("₹1,000,000".data), ("high".data)⟩,
   ⟨FieldKind.employment_income, ("Self-Employed | ₹50,000".data), ("medium".data)⟩,
   ⟨FieldKind.repayment_timeline, ("5 years".data), ("high".data)⟩,
   ⟨FieldKind.bank_relationship, ("Yes".data), ("medium".data)⟩]

/-- Claim C2, counterexample: on the end-to-end scenario input the
extractor does not return the claimed entity list — the loan_amount
value differs (the `thousand` pattern precedes the `lakh` pattern in
`amount_patterns` and matches the "50k" of the employment clause, so
"10 lakh" is never reached). -/
theorem end_to_end_scenario_counterexample :
    extractEntities c2Input ≠ c2ClaimedEntities := by
  decide

/-- Claim C2, amended: the scenario yields exactly the claimed entities
except that loan_amount is "₹50,000" (from "50k"), not "₹1,000,000". -/
theorem end_to_end_scenario_actual :
    extractEntities c2Input =
      [⟨FieldKind.loan_type, ("Home Loan".data), ("high".data)⟩,
       ⟨FieldKind.loan_purpose, ("Home Purchase".data), ("high".data)⟩,
       ⟨FieldKind.loan_amount, ("₹50,000".data), ("high".data)⟩,
       ⟨FieldKind.employment_income, ("Self-Employed | ₹50,000".data), ("medium".data)⟩,
       ⟨FieldKind.repayment_timeline, ("5 years".data), ("high".data)⟩,
       ⟨FieldKind.bank_relationship, ("Yes".data), ("medium".data)⟩] := by
  decide

/-- Claim C3: for every input string, the result of the extractor contains
at most one entity per FieldKind — the fields of distinct entries are
pairwise distinct. -/
theorem extract_at_most_one_per_field (t : List Char) :
    (extractEntities t).Pairwise (fun a b => a.field ≠ b.field) := by
  rw [extractEntities_eq]
  have h : ((entityList t).map (fun e => e.field)).Nodup :=
    List.Nodup.sublist (fields_sublist t) (by decide)
  exact List.pairwise_map.mp h

/-- Claim C4: extraction is total and never raises — for every input
string the call completes with `Except.ok` of an entity list; a matching
failure for any sub-field only yields absence of that field's entity,
never an error for the whole call. -/
theorem extract_total_never_raises (t : List Char) :
    extract_loan_entities t = Except.ok (extractEntities t) := by
  rw [extractEntities_eq]
  exact extractE_ok t

/-- Claim C5: the amount normalizer scales matched numerals by their
scale tag and renders them with currency symbol and thousands grouping,
zero decimals: "50k" gives 50,000; "2 lakh" gives 200,000; "1 crore"
gives 10,000,000; "₹75,000" gives 75,000; each rendered as the rupee
sign followed by the grouped integer. -/
theorem amount_normalizer_examples :
    formatAmount 50 0 1000 = ("₹50,000".data) ∧
    formatAmount 2 0 100000 = ("₹200,000".data) ∧
    formatAmount 1 0 10000000 = ("₹10,000,000".data) ∧
    formatAmount 75000 0 1 = ("₹75,000".data) ∧
    extractEntities ("50k".data) =
      [⟨FieldKind.loan_amount, ("₹50,000".data), ("high".data)⟩] ∧
    extractEntities ("2 lakh".data) =
      [⟨FieldKind.loan_amount, ("₹200,000".data), ("high".data)⟩] ∧
    extractEntities ("1 crore".data) =
      [⟨FieldKind.loan_amount, ("₹10,000,000".data), ("high".data)⟩] ∧
    extractEntities ("₹75,000".data) =
      [⟨FieldKind.loan_amount, ("₹75,000".data), ("high".data)⟩] :=
  ⟨by decide, by decide, by decide, by decide, by decide, by decide, by decide, by decide⟩

/-- Claim C6: employment-status detection gives self-employed keywords
absolute precedence — whenever the lower-cased text contains one of the
`self_employed_keywords`, the detected status is "Self-Employed",
whatever else the text contains. -/
theorem self_employed_precedence (t : List Char)
    (h : self_employed_keywords.any (fun kw => containsSub (pyLower t) kw) = true) :
    employmentStatus (pyLower t) = some ("Self-Employed".data) := by
  unfold employmentStatus
  rw [if_pos h]

/-- Witness for C6: a text containing both "self-employed" and
"working as" satisfies the hypothesis and reports "Self-Employed",
not "Employed". -/
theorem self_employed_precedence_witness :
    self_employed_keywords.any
      (fun kw => containsSub (pyLower ("I am self-employed working as a consultant".data)) kw) = true ∧
    employed_keywords.any
      (fun kw => containsSub (pyLower ("I am self-employed working as a consultant".data)) kw) = true ∧
    employmentStatus (pyLower ("I am self-employed working as a consultant".data)) =
      some ("Self-Employed".data) :=
  ⟨by decide, by decide,
    self_employed_precedence ("I am self-employed working as a consultant".data) (by decide)⟩

/-- Claim C7: a numeral substring matched by one of the amount or income
patterns always parses, so the numeric detectors never produce an error:
they return `Except.ok` of their optional result on every input, and the
only failure mode of either field is absence.  (The "UnparseableNumeral"
guard of the specification is thereby unreachable; the source indeed has
no handler for it, but no error can ever propagate out of the call.) -/
theorem unparseable_numeral_never_escapes (tl : List Char) :
    loanAmountE tl = Except.ok (loanAmountOpt tl) ∧
    incomeInfoE tl = Except.ok (incomeInfoOpt tl) :=
  ⟨loanAmountE_eq tl, incomeInfoE_eq tl⟩

/-- Claim C8: every entity produced carries confidence "high" or
"medium", never "low"; employment_income and bank_relationship entities
carry "medium", the other four fields carry "high". -/
theorem confidence_levels (t : List Char) (e : Entity) (h : e ∈ extractEntities t) :
    (e.confidence = ("high".data) ∨ e.confidence = ("medium".data)) ∧
    ((e.field = FieldKind.employment_income ∨ e.field = FieldKind.bank_relationship) →
      e.confidence = ("medium".data)) ∧
    ((e.field = FieldKind.loan_type ∨ e.field = FieldKind.loan_purpose ∨
      e.field = FieldKind.loan_amount ∨ e.field = FieldKind.repayment_timeline) →
      e.confidence = ("high".data)) := by
  rw [extractEntities_eq] at h
  unfold entityList at h
  simp only [List.mem_append, Option.mem_toList, Option.mem_def] at h
  rcases h with ((((h | h) | h) | h) | h) | h
  · obtain ⟨hf, hc⟩ := loanTypeEntity_shape h
    refine ⟨Or.inl hc, ?_, fun _ => hc⟩
    intro hor
    rcases hor with h' | h' <;> rw [hf] at h' <;> exact absurd h' (by decide)
  · obtain ⟨hf, hc⟩ := loanPurposeEntity_shape h
    refine ⟨Or.inl hc, ?_, fun _ => hc⟩
    intro hor
    rcases hor with h' | h' <;> rw [hf] at h' <;> exact absurd h' (by decide)
  · obtain ⟨hf, hc⟩ := loanAmountOpt_shape h
    refine ⟨Or.inl hc, ?_, fun _ => hc⟩
    intro hor
    rcases hor with h' | h' <;> rw [hf] at h' <;> exact absurd h' (by decide)
  · obtain ⟨hf, hc⟩ := employmentEntity_shape h
    refine ⟨Or.inr hc, fun _ => hc, ?_⟩
    intro hor
    rcases hor with h' | h' | h' | h' <;> rw [hf] at h' <;> exact absurd h' (by decide)
  · obtain ⟨hf, hc⟩ := timelineEntity_shape h
    refine ⟨Or.inl hc, ?_, fun _ => hc⟩
    intro hor
    rcases hor with h' | h' <;> rw [hf] at h' <;> exact absurd h' (by decide)
  · obtain ⟨hf, hc⟩ := bankEntity_shape h
    refine ⟨Or.inr hc, fun _ => hc, ?_⟩
    intro hor
    rcases hor with h' | h' | h' | h' <;> rw [hf] at h' <;> exact absurd h' (by decide)

/-- Witness for C8 at a concrete input and entity. -/
theorem confidence_levels_witness :
    (⟨FieldKind.loan_amount, ("₹50,000".data), ("high".data)⟩ : Entity) ∈
      extractEntities ("50k".data) ∧
    ((⟨FieldKind.loan_amount, ("₹50,000".data), ("high".data)⟩ : Entity).confidence = ("high".data) ∨
     (⟨FieldKind.loan_amount, ("₹50,000".data), ("high".data)⟩ : Entity).confidence = ("medium".data)) :=
  ⟨by decide,
    (confidence_levels ("50k".data)
      ⟨FieldKind.loan_amount, ("₹50,000".data), ("high".data)⟩ (by decide)).1⟩

/-- Claim C9: extraction is deterministic and stateless — it is a pure
function of the transcript alone, so two calls on equal inputs return
equal results. -/
theorem extract_deterministic (t1 t2 : List Char) (h : t1 = t2) :
    extract_loan_entities t1 = extract_loan_entities t2 := by
  rw [h]

/-- Witness for C9 at a concrete input. -/
theorem extract_deterministic_witness :
    extract_loan_entities ("2 lakh".data) = extract_loan_entities ("2 lakh".data) :=
  extract_deterministic ("2 lakh".data) ("2 lakh".data) rfl

/-- Claim C10 (implicit): the entities present in the result always
appear in the fixed detector order loan_type, loan_purpose, loan_amount,
employment_income, repayment_timeline, bank_relationship, regardless of
where the matched phrases occur in the input text. -/
theorem entity_order_fixed (t : List Char) :
    ((extractEntities t).map (fun e => e.field)).Sublist allFields := by
  rw [extractEntities_eq]
  exact fields_sublist t
